import Mathlib

/-!
Verification development for the Vigilant RBI compliance pipeline
(backend services: audio_processor, json_builder, compliance_engine,
rag_engine, and the orchestrating pipeline in main).

Each definition is a shallow embedding of the corresponding Python
function; machine floats are modelled by rationals (the thresholds and
comparisons involved are exact at every value considered), Python
dictionaries by structures with `Option` fields for keys that may be
absent, and Python sets by lists with membership semantics.
-/

namespace Vigilant

/- ----------------------------------------------------------------- -/
/- Generic helpers modelling Python primitives                        -/
/- ----------------------------------------------------------------- -/

/-- Python `str.lower()` (ASCII case folding suffices for all strings
involved in this code base): lowercase every character. -/
def pyLower (s : String) : String :=
  String.mk (s.data.map Char.toLower)

/-- Python `x or y` where `x : Optional[str]`: `None` and the empty
string are falsy and fall through to the default. -/
def pyOr (x : Option String) (dflt : String) : String :=
  match x with
  | none => dflt
  | some s => if s = "" then dflt else s

/-- Two-digit zero-padded rendering of a number below 100, as produced
by `strftime("%H")` / `%M`. -/
def twoDigits (n : Nat) : String :=
  if n < 10 then "0" ++ toString n else toString n

/-- Does `needle` occur at the head of `hay`? -/
def leadsList : List Char → List Char → Bool
  | [], _ => true
  | _ :: _, [] => false
  | a :: as, b :: bs => a == b && leadsList as bs

/-- Python `needle in hay` substring containment on strings, over the
underlying character lists. -/
def containsSub (needle : List Char) : List Char → Bool
  | [] => leadsList needle []
  | c :: cs => leadsList needle (c :: cs) || containsSub needle cs

/-- Substring containment on `String`, Python's `s in t`. -/
def strContains (hay needle : String) : Bool :=
  containsSub needle.data hay.data

/- ----------------------------------------------------------------- -/
/- audio_processor.py : constants and arousal classification          -/
/- ----------------------------------------------------------------- -/

def IST_OFFSET_MINUTES : Int := 330

def SEGMENT_DURATION_SECONDS : Nat := 10

def SAMPLE_RATE : Nat := 16000

def HIGH_ENERGY_THRESHOLD : ℚ := 65 / 100

def MEDIUM_ENERGY_THRESHOLD : ℚ := 35 / 100

def HIGH_PITCH_THRESHOLD : ℚ := 210

/-- `_classify_arousal(energy, pitch)`: map energy + pitch to the
acoustic arousal label (src/backend/services/audio_processor.py,
lines 40-46). -/
def _classify_arousal (energy pitch : ℚ) : String :=
  if HIGH_ENERGY_THRESHOLD ≤ energy ∧ HIGH_PITCH_THRESHOLD ≤ pitch then
    "High"
  else if MEDIUM_ENERGY_THRESHOLD ≤ energy then
    "Medium"
  else
    "Low"

/- ----------------------------------------------------------------- -/
/- audio_processor.py : analyze_audio windowing                       -/
/- ----------------------------------------------------------------- -/

/-- `segment_samples = SEGMENT_DURATION_SECONDS * sr` with the fixed
decode rate `sr = SAMPLE_RATE`. -/
def segmentSamples : Nat := SEGMENT_DURATION_SECONDS * SAMPLE_RATE

/-- `num_segments = max(1, math.ceil(total_samples / segment_samples))`
(audio_processor.py line 93); the ceiling is exact on `Nat`. -/
def numSegments (totalSamples : Nat) : Nat :=
  max 1 ((totalSamples + segmentSamples - 1) / segmentSamples)

/-- The `(start, end)` sample bounds of window `i`:
`start = i * segment_samples`, `end = min(start + segment_samples,
total_samples)` (audio_processor.py lines 101-102). -/
def windowBounds (totalSamples i : Nat) : Nat × Nat :=
  (i * segmentSamples, min (i * segmentSamples + segmentSamples) totalSamples)

/-- All windows the loop of `analyze_audio` visits, in order. -/
def allWindows (totalSamples : Nat) : List (Nat × Nat) :=
  (List.range (numSegments totalSamples)).map (windowBounds totalSamples)

/-- One loop iteration of `analyze_audio` (lines 100-141): window `i`
is skipped when `len(segment) < sr * 0.5` (line 105), i.e. when twice
its sample count is below the sample rate; otherwise it yields
exactly one appended segment. -/
def keptWindow? (totalSamples i : Nat) : Option (Nat × Nat) :=
  let w := windowBounds totalSamples i
  if 2 * (w.2 - w.1) < SAMPLE_RATE then none else some w

/-- The windows of `analyze_audio` that actually produce a segment,
in loop order. -/
def keptWindows (totalSamples : Nat) : List (Nat × Nat) :=
  (List.range (numSegments totalSamples)).filterMap (keptWindow? totalSamples)

/-- Modelled from the spec's words, for refinement comparison with
`keptWindows` only: a window is dropped when it is shorter than half
the window length (5 seconds of samples). -/
def claimKeptWindow? (totalSamples i : Nat) : Option (Nat × Nat) :=
  let w := windowBounds totalSamples i
  if w.2 - w.1 < 5 * SAMPLE_RATE then none else some w

/-- Modelled from the spec's words, for refinement comparison with
`keptWindows` only: one segment per window except that a window
shorter than half the window length is dropped. -/
def claimKeptWindows (totalSamples : Nat) : List (Nat × Nat) :=
  (List.range (numSegments totalSamples)).filterMap (claimKeptWindow? totalSamples)

/- ----------------------------------------------------------------- -/
/- audio_processor.py : lexical tone classification                   -/
/- ----------------------------------------------------------------- -/

def POSITIVE_STEMS : List String :=
  ["thank", "great", "good", "happy", "perfect", "nice", "appreciat",
   "wonderful", "excellent", "okay", "sure", "fine", "alright",
   "help", "assist", "solut", "resolv", "understand", "pleasant",
   "cooperat", "willing", "absolut", "certainly", "of course"]

def ANGRY_STEMS : List String :=
  ["angr", "upset", "frustrat", "annoy", "complain",
   "terribl", "horribl", "unacceptabl", "ridicul",
   "useless", "fraud", "scam", "cheat", "liar", "threaten", "threat",
   "demand", "refus", "impossib", "wrong", "mistak",
   "harass", "abuse", "abusiv", "insult", "stupid", "idiot",
   "nonsense", "enough", "fed up", "shut up", "get out",
   "illegal", "police", "jail", "arrest", "legal action"]

def FEARFUL_STEMS : List String :=
  ["afraid", "scar", "worr", "anxious", "nervous", "panic",
   "fear", "stress", "concern", "uncertain", "confus", "lost",
   "pleas don", "beg", "mercy", "please don\x27t", "please stop"]

def URGENT_STEMS : List String :=
  ["immediately", "asap", "urgent", "right away", "right now",
   "quick", "deadlin", "overd", "final notice", "last chance",
   "warning", "must pay", "pay now", "today itself"]

/-- `_stem_score(text_lower, stems)`: count how many stems/phrases
appear (as substrings) in the lowercased text
(audio_processor.py lines 189-191). -/
def _stem_score (textLower : String) (stems : List String) : Nat :=
  (stems.filter (fun s => strContains textLower s)).length

/-- `classify_tone(message)`: classify the emotional tone of a single
transcript message (audio_processor.py lines 194-217). -/
def classify_tone (message : String) : String :=
  let text := pyLower message
  let angry_score := _stem_score text ANGRY_STEMS
  let positive_score := _stem_score text POSITIVE_STEMS
  let fearful_score := _stem_score text FEARFUL_STEMS
  let urgent_score := _stem_score text URGENT_STEMS
  if 1 ≤ angry_score ∧ positive_score ≤ angry_score then "angry/frustrated"
  else if 1 ≤ fearful_score then "fearful/anxious"
  else if 1 ≤ urgent_score then "urgent"
  else if 1 ≤ positive_score then "positive"
  else "neutral"

/- ----------------------------------------------------------------- -/
/- audio_processor.py : temporal policy check                         -/
/- ----------------------------------------------------------------- -/

/-- A successfully parsed call timestamp: the wall-clock time of day
carried by the ISO-8601 string together with its UTC offset in
minutes. `datetime.fromisoformat` is the black-box parser; a naive
timestamp (no offset) is replaced with UTC by the source (line 253),
so it is modelled with `offsetMinutes = 0`. Only the time of day and
the offset can influence the IST hour, since the IST conversion
shifts by a fixed whole number of minutes and `.hour` is reduced
modulo 24 hours. -/
structure ParsedTimestamp where
  hour : Nat
  minute : Nat
  offsetMinutes : Int
deriving DecidableEq

/-- The result dictionary of `check_time_violation`
(audio_processor.py lines 271-277 and 281-287). -/
structure TimeViolationResult where
  violation : Bool
  ist_time : String
  clause_id : String
  rule_name : String
  description : String
deriving DecidableEq

/-- Minutes-past-midnight of the timestamp converted to UTC+5:30
(`utc_dt.astimezone(timezone(IST_OFFSET))`, line 255), reduced to a
single day. -/
def istMinutesOfDay (t : ParsedTimestamp) : Nat :=
  ((((t.hour * 60 + t.minute : Int) - t.offsetMinutes + IST_OFFSET_MINUTES) % 1440)).toNat

/-- The IST hour read off the converted timestamp (line 256). -/
def istHour (t : ParsedTimestamp) : Nat :=
  istMinutesOfDay t / 60

/-- `ist_dt.strftime("%H:%M")` (line 257). -/
def istTimeString (t : ParsedTimestamp) : String :=
  twoDigits (istHour t) ++ ":" ++ twoDigits (istMinutesOfDay t % 60)

/-- `check_time_violation(call_timestamp_utc)`
(audio_processor.py lines 231-287). The argument is the outcome of
the `try`-block's parsing: `none` models any input string that makes
`datetime.fromisoformat` raise, `some t` a successful parse. The
function itself never raises: every branch returns a result record. -/
def check_time_violation (parsed : Option ParsedTimestamp) : TimeViolationResult :=
  match parsed with
  | some t =>
    let hour := istHour t
    let ist_time_str := istTimeString t
    let is_violation : Bool := decide (hour < 8 ∨ 19 ≤ hour)
    let description :=
      if is_violation then
        let period := if hour < 8 then "morning (before 8 AM)" else "evening (after 7 PM)"
        "Call placed outside approved hours (8 AM – 7 PM IST). " ++
          "Call was received at " ++ ist_time_str ++ " IST, which is in the " ++ period ++ "."
      else
        "Call placed within approved hours. IST time: " ++ ist_time_str ++ "."
    { violation := is_violation
      ist_time := ist_time_str
      clause_id := "INTERNAL-TIME-01"
      rule_name := "Operating Hours Compliance"
      description := description }
  | none =>
    { violation := false
      ist_time := "unknown"
      clause_id := "INTERNAL-TIME-01"
      rule_name := "Operating Hours Compliance"
      description := "Could not determine call time. Timestamp parse error." }

/- ----------------------------------------------------------------- -/
/- json_builder.py : compliance-and-risk-audit assembly               -/
/- ----------------------------------------------------------------- -/

/-- One entry of the reasoning output's `policy_violations` list: a
JSON object whose string fields may each be absent (`dict.get`). -/
structure ViolationEntry where
  clause_id : Option String := none
  rule_name : Option String := none
  severity : Option String := none
  description : Option String := none
  timestamp : Option String := none
  evidence_quote : Option String := none
deriving DecidableEq

/-- The fields of the reasoning step's result dictionary consumed by
the compliance_and_risk_audit section of `build_output_json`
(json_builder.py lines 115-160); `none` models an absent key. -/
structure ComplianceResultAudit where
  is_within_policy : Option Bool := none
  compliance_flags : Option (List String) := none
  policy_violations : List ViolationEntry := []
deriving DecidableEq

/-- The assembled `compliance_and_risk_audit` section (the fields the
normalization, injection and derivation steps produce). -/
structure ComplianceAudit where
  is_within_policy : Bool
  compliance_flags : List String
  policy_violations : List ViolationEntry
deriving DecidableEq

/-- `_severity_values = {"low", "medium", "high", "critical"}`
(json_builder.py line 119), as a list with set-membership use. -/
def _severity_values : List String := ["low", "medium", "high", "critical"]

/-- The per-violation severity normalization of json_builder.py lines
120-123: `sev = str(v.get("severity", "")).lower(); if sev not in
_severity_values: v["severity"] = "medium"`. -/
def normalizeSeverity (v : ViolationEntry) : ViolationEntry :=
  let sev := pyLower (v.severity.getD "")
  if sev ∈ _severity_values then v else { v with severity := some "medium" }

/-- The synthesized temporal violation appended at json_builder.py
lines 129-140. -/
def timeViolationEntry (tv : TimeViolationResult) : ViolationEntry :=
  { clause_id := some "INTERNAL-TIME-01"
    rule_name := some tv.rule_name
    severity := some "high"
    description := some tv.description
    timestamp := some tv.ist_time
    evidence_quote := some ("Call timestamp detected as " ++ tv.ist_time ++ " IST.") }

/-- The compliance_and_risk_audit portion of `build_output_json`
(json_builder.py lines 115-160): severity normalization (118-123),
temporal-violation injection (125-140), `is_within_policy` derivation
(142-143) and compliance-flag synthesis (145-147). The surrounding
sections of `build_output_json` (metadata, config echo, intelligence
summary, emotional analysis, performance) neither read nor write any
of these fields. -/
def build_compliance_audit (cr : ComplianceResultAudit)
    (tv : TimeViolationResult) : ComplianceAudit :=
  let policy_violations := cr.policy_violations.map normalizeSeverity
  let policy_violations :=
    if tv.violation ∧ some "INTERNAL-TIME-01" ∉ policy_violations.map (·.clause_id) then
      policy_violations ++ [timeViolationEntry tv]
    else
      policy_violations
  let has_violations := 0 < policy_violations.length
  let is_within_policy := cr.is_within_policy.getD (!has_violations)
  let compliance_flags := cr.compliance_flags.getD []
  let compliance_flags :=
    if has_violations ∧ compliance_flags = [] then ["Policy Violation Detected"]
    else compliance_flags
  { is_within_policy := is_within_policy
    compliance_flags := compliance_flags
    policy_violations := policy_violations }

/-- Number of entries in a violation list carrying the fixed temporal
clause id. -/
def temporalCount (vs : List ViolationEntry) : Nat :=
  vs.countP (fun v => v.clause_id = some "INTERNAL-TIME-01")

/- ----------------------------------------------------------------- -/
/- compliance_engine.py : fallback document and retry chain           -/
/- ----------------------------------------------------------------- -/

/-- One `emotional_graph` point (compliance_engine.py line 184). -/
structure GraphPoint where
  timestamp : String
  tone : String
  score : ℚ
  acoustic_arousal : String
deriving DecidableEq

/-- One `emotion_timeline` point (compliance_engine.py lines 187-189). -/
structure TimelinePoint where
  time : String
  emotion : String
deriving DecidableEq

/-- The reasoning result document: the key set required by the
compliance prompt, which is also exactly the key set of
`_build_fallback_compliance`. On the success path the engine returns
the parsed JSON verbatim; a value of this structure stands for such a
parsed judgment. -/
structure ComplianceDoc where
  summary : String
  category : String
  overall_sentiment : String
  emotional_tone : String
  tone_progression : List String
  emotional_graph : List GraphPoint
  emotion_timeline : List TimelinePoint
  is_within_policy : Bool
  compliance_flags : List String
  policy_violations : List ViolationEntry
  detected_threats : List String
  fraud_risk : String
  escalation_risk : String
  urgency_level : String
  risk_escalation_score : Nat
  agent_politeness : String
  agent_empathy : String
  agent_professionalism : String
  agent_quality_score : Nat
  call_outcome_prediction : String
  repeat_complaint_detected : Bool
  final_status : String
  recommended_action : String
deriving DecidableEq

/-- `_build_fallback_compliance(error)` (compliance_engine.py lines
176-207): the fixed neutral document; the summary depends on whether
the error string is truthy (non-empty). -/
def _build_fallback_compliance (error : String) : ComplianceDoc :=
  { summary :=
      if error ≠ "" then "Analysis could not be completed. Error: " ++ error
      else "Analysis could not be completed due to a processing error."
    category := "Unknown"
    overall_sentiment := "Unknown"
    emotional_tone := "Unknown"
    tone_progression := ["Unknown"]
    emotional_graph :=
      [{ timestamp := "00:00", tone := "Neutral", score := 1 / 2, acoustic_arousal := "Low" }]
    emotion_timeline :=
      [{ time := "start", emotion := "unknown" },
       { time := "middle", emotion := "unknown" },
       { time := "end", emotion := "unknown" }]
    is_within_policy := true
    compliance_flags := []
    policy_violations := []
    detected_threats := []
    fraud_risk := "low"
    escalation_risk := "low"
    urgency_level := "low"
    risk_escalation_score := 0
    agent_politeness := "fair"
    agent_empathy := "medium"
    agent_professionalism := "fair"
    agent_quality_score := 50
    call_outcome_prediction := "Resolved"
    repeat_complaint_detected := false
    final_status := "Pending Review"
    recommended_action := "Manual review required." }

/-- Outcome of one model invocation inside `run_compliance_analysis`:
the generate-and-parse step either yields a parsed document, raises
`json.JSONDecodeError` from `_extract_json` (carrying the exception's
string form), or raises any other exception (the call itself
failing). -/
inductive AttemptOutcome where
  | ok (doc : ComplianceDoc)
  | parseError (msg : String)
  | callError (msg : String)
deriving DecidableEq

/-- The try/except chain of `run_compliance_analysis`
(compliance_engine.py lines 256-299), given the outcomes of the
primary (gemini-2.5-flash) attempt and of the secondary
(gemini-2.0-flash) attempt; the secondary attempt uses the identical
`prompt`. The Boolean records whether the secondary model was invoked
at all, i.e. whether control reached the retry block of lines
276-299; the source reaches it only from the generic
`except Exception` handler of line 274, since `except
json.JSONDecodeError` (line 271) is matched first and returns the
fallback directly. -/
def run_compliance_analysis (primary secondary : AttemptOutcome) :
    ComplianceDoc × Bool :=
  match primary with
  | .ok doc => (doc, false)
  | .parseError msg => (_build_fallback_compliance ("JSON parse error: " ++ msg), false)
  | .callError _ =>
    match secondary with
    | .ok doc => (doc, true)
    | .parseError msg2 => (_build_fallback_compliance ("JSON parse error: " ++ msg2), true)
    | .callError msg2 => (_build_fallback_compliance msg2, true)

/-- An attempt that did not yield a parsed document. -/
def AttemptOutcome.failed : AttemptOutcome → Prop
  | .ok _ => False
  | .parseError _ => True
  | .callError _ => True

instance (a : AttemptOutcome) : Decidable a.failed := by
  cases a <;> simp [AttemptOutcome.failed] <;> infer_instance

/- ----------------------------------------------------------------- -/
/- rag_engine.py : clause-id / rule-name extraction                   -/
/- ----------------------------------------------------------------- -/

/-- A character of the regex class `[\w-]` (ASCII word characters plus
hyphen; the policy corpus is ASCII). -/
def isWordChar (c : Char) : Bool :=
  c.isAlphanum || c == '_' || c == '-'

/-- Attempt the regex `CLAUSE\s+([\w-]+):` at the head of the
character list, returning the captured identifier. The classes `\s`
and `[\w-]` are disjoint, so greedy matching needs no backtracking. -/
def matchClauseIdAt (cs : List Char) : Option String :=
  if leadsList "CLAUSE".data cs then
    let rest := cs.drop 6
    let ws := rest.takeWhile (fun c => c.isWhitespace)
    if ws.length = 0 then none
    else
      let rest2 := rest.drop ws.length
      let idChars := rest2.takeWhile isWordChar
      if idChars.length = 0 then none
      else
        match rest2.drop idChars.length with
        | ':' :: _ => some (String.mk idChars)
        | _ => none
  else none

/-- `re.search` for the clause-id pattern: first position where the
pattern matches. -/
def searchClauseId : List Char → Option String
  | [] => none
  | c :: cs =>
    match matchClauseIdAt (c :: cs) with
    | some s => some s
    | none => searchClauseId cs

/-- `_extract_clause_id(text)` (rag_engine.py lines 322-326). -/
def _extract_clause_id (text : String) : String :=
  (searchClauseId text.data).getD "UNKNOWN"

/-- Attempt the regex `CLAUSE\s+[\w-]+:\s*(.+)` at the head of the
character list, returning the capture (the rest of the line after the
colon and any whitespace). Since `.` excludes newlines, the greedy
`\s*` stops at the first non-whitespace character, which on every
input whose post-colon text contains a non-whitespace character
before its newline is where `(.+)` starts. -/
def matchRuleNameAt (cs : List Char) : Option String :=
  if leadsList "CLAUSE".data cs then
    let rest := cs.drop 6
    let ws := rest.takeWhile (fun c => c.isWhitespace)
    if ws.length = 0 then none
    else
      let rest2 := rest.drop ws.length
      let idChars := rest2.takeWhile isWordChar
      if idChars.length = 0 then none
      else
        match rest2.drop idChars.length with
        | ':' :: rest3 =>
          let rest4 := rest3.dropWhile (fun c => c.isWhitespace)
          let nameChars := rest4.takeWhile (fun c => c ≠ '\n')
          if nameChars.length = 0 then none else some (String.mk nameChars)
        | _ => none
  else none

/-- `re.search` for the rule-name pattern. -/
def searchRuleName : List Char → Option String
  | [] => none
  | c :: cs =>
    match matchRuleNameAt (c :: cs) with
    | some s => some s
    | none => searchRuleName cs

/-- `_extract_rule_name(text)` (rag_engine.py lines 329-335):
`match.group(1).strip()[:80]` on success, else "Policy Clause". -/
def _extract_rule_name (text : String) : String :=
  match searchRuleName text.data with
  | some s => s.trim.take 80
  | none => "Policy Clause"

/- ----------------------------------------------------------------- -/
/- rag_engine.py : retrieve_relevant_clauses                          -/
/- ----------------------------------------------------------------- -/

/-- A document returned by a vector-store retriever: its page content
plus the metadata keys the retrieval loop reads (each possibly
absent). -/
structure RetrievedDoc where
  page_content : String
  clause_id : Option String := none
  rule_name : Option String := none
  source : Option String := none
deriving DecidableEq

/-- A clause record as produced by the retriever and by
`get_all_policy_clauses`. -/
structure Clause where
  clause_id : String
  rule_name : String
  description : String
  source : String
deriving DecidableEq

/-- The state threaded through the retrieval loop: the `seen_clauses`
set (modelled as a list with membership semantics) and the `clauses`
accumulator (rag_engine.py lines 273-274). -/
abbrev RetrieveState := List String × List Clause

/-- The RBI-store branch body (rag_engine.py lines 280-293) for one
retrieved document. -/
def processRbiDoc (st : RetrieveState) (doc : RetrievedDoc) : RetrieveState :=
  let cid := pyOr doc.clause_id (_extract_clause_id doc.page_content)
  if cid ∈ st.1 then st
  else
    (cid :: st.1,
     st.2 ++ [{ clause_id := cid
                rule_name := pyOr doc.rule_name (_extract_rule_name doc.page_content)
                description := doc.page_content
                source := doc.source.getD "rbi_policies" }])

/-- The client-store branch body (rag_engine.py lines 300-314) for one
retrieved document: the dedup key is `"CLIENT-" + rule_name`
(falling back to the clause id), not the clause id itself. -/
def processClientDoc (st : RetrieveState) (doc : RetrievedDoc) : RetrieveState :=
  let cid := doc.clause_id.getD "CLIENT-XX"
  let key := "CLIENT-" ++ doc.rule_name.getD cid
  if key ∈ st.1 then st
  else
    (key :: st.1,
     st.2 ++ [{ clause_id := cid
                rule_name := doc.rule_name.getD "Client Rule"
                description := doc.page_content
                source := "client_config" }])

/-- One iteration of the per-message loop (rag_engine.py lines
276-316): process the RBI hits for the message, then — when a client
rule store exists — the client hits. A retrieval error inside either
`try` contributes no documents and is therefore modelled by an empty
hit list. -/
def retrieveStep (clientPresent : Bool) (st : RetrieveState)
    (hits : List RetrievedDoc × List RetrievedDoc) : RetrieveState :=
  let st1 := hits.1.foldl processRbiDoc st
  if clientPresent then hits.2.foldl processClientDoc st1 else st1

/-- `retrieve_relevant_clauses` (rag_engine.py lines 228-319), given
per agent message the documents the RBI retriever and the client
retriever return for it (the similarity search itself is the
black-box embedding service). `clientPresent` states whether
`load_client_rules` produced a client store. -/
def retrieve_relevant_clauses (clientPresent : Bool)
    (hits : List (List RetrievedDoc × List RetrievedDoc)) : List Clause :=
  (hits.foldl (retrieveStep clientPresent) ([], [])).2

/- ----------------------------------------------------------------- -/
/- main.py : merging the full corpus with the retrieval result        -/
/- ----------------------------------------------------------------- -/

/-- The merge loop of `_run_analysis_pipeline` (main.py lines
337-342), recursing over the retrieved clauses with the `seen_ids`
set and the growing `all_clauses` list. -/
def mergeGo (seen : List String) (acc : List Clause) : List Clause → List Clause
  | [] => acc
  | c :: rest =>
    if c.clause_id ∈ seen then mergeGo seen acc rest
    else mergeGo (c.clause_id :: seen) (acc ++ [c]) rest

/-- `all_clauses` unioned with the RAG result, deduplicated on
clause_id: `seen_ids = {c["clause_id"] for c in all_clauses}` then
append each RAG clause whose id is unseen (main.py lines 337-342). -/
def mergeClauses (allClauses ragClauses : List Clause) : List Clause :=
  mergeGo (allClauses.map (·.clause_id)) allClauses ragClauses

/- ----------------------------------------------------------------- -/
/- Theorems                                                           -/
/- ----------------------------------------------------------------- -/

/-- Claim C7: arousal classification is a deterministic total function
of (energy, pitch) evaluated in a fixed order: it returns High iff
energy ≥ 0.65 and pitch ≥ 210 Hz; otherwise Medium iff energy ≥ 0.35;
otherwise Low — in particular (0.65, 210) is High, (0.65, 209.9) is
Medium, and (0.34, any pitch) is Low. -/
theorem arousal_classification_rule :
    (∀ e p : ℚ,
      (_classify_arousal e p = "High" ↔ 65 / 100 ≤ e ∧ 210 ≤ p) ∧
      (_classify_arousal e p = "Medium" ↔ ¬(65 / 100 ≤ e ∧ 210 ≤ p) ∧ 35 / 100 ≤ e) ∧
      (_classify_arousal e p = "Low" ↔ ¬(65 / 100 ≤ e ∧ 210 ≤ p) ∧ ¬(35 / 100 ≤ e))) ∧
    _classify_arousal (65 / 100) 210 = "High" ∧
    _classify_arousal (65 / 100) (2099 / 10) = "Medium" ∧
    ∀ p : ℚ, _classify_arousal (34 / 100) p = "Low" := by
  refine ⟨fun e p => ?_, ?_, ?_, fun p => ?_⟩
  · unfold _classify_arousal HIGH_ENERGY_THRESHOLD MEDIUM_ENERGY_THRESHOLD HIGH_PITCH_THRESHOLD
    split_ifs with h1 h2 <;> refine ⟨?_, ?_, ?_⟩ <;> simp_all
  · unfold _classify_arousal HIGH_ENERGY_THRESHOLD MEDIUM_ENERGY_THRESHOLD HIGH_PITCH_THRESHOLD
    rw [if_pos ⟨by norm_num, by norm_num⟩]
  · unfold _classify_arousal HIGH_ENERGY_THRESHOLD MEDIUM_ENERGY_THRESHOLD HIGH_PITCH_THRESHOLD
    rw [if_neg (fun h => absurd h.2 (by norm_num)), if_pos (by norm_num)]
  · unfold _classify_arousal HIGH_ENERGY_THRESHOLD MEDIUM_ENERGY_THRESHOLD HIGH_PITCH_THRESHOLD
    rw [if_neg (fun h => absurd h.1 (by norm_num)), if_neg (by norm_num)]

/-- Claim C9: the temporal policy check is total (every branch of the
embedding returns a result record); on a successfully parsed
timestamp it reports a violation iff the UTC+5:30 local hour is below
8 or at least 19, and on unparsable input it returns violation=false,
local time "unknown" and the fixed descriptive error note; the
boundary timestamp 02:30 UTC (08:00 IST) is not a violation. -/
theorem time_violation_rule :
    (∀ parsed : Option ParsedTimestamp,
      (∀ t, parsed = some t →
        ((check_time_violation parsed).violation = true ↔
          istHour t < 8 ∨ 19 ≤ istHour t)) ∧
      (parsed = none →
        check_time_violation parsed =
          { violation := false
            ist_time := "unknown"
            clause_id := "INTERNAL-TIME-01"
            rule_name := "Operating Hours Compliance"
            description := "Could not determine call time. Timestamp parse error." })) ∧
    (check_time_violation (some ⟨2, 30, 0⟩)).violation = false ∧
    istHour ⟨2, 30, 0⟩ = 8 := by
  refine ⟨fun parsed => ⟨fun t ht => ?_, fun hn => ?_⟩, by decide, by decide⟩
  · subst ht
    simp [check_time_violation]
  · subst hn
    rfl

/-- Claim C9 witness: a 20:05 UTC call (01:35 IST) is reported as a
violation. -/
theorem time_violation_rule_witness :
    (check_time_violation (some ⟨20, 5, 0⟩)).violation = true :=
  ((time_violation_rule.1 (some ⟨20, 5, 0⟩)).1 ⟨20, 5, 0⟩ rfl).mpr (by decide)

/-- Claim C10: lexical tone classification lowercases the text, scores
each lexicon by the stems occurring as substrings, and picks the
first matching label in the fixed order angry (angry ≥ 1 and
angry ≥ positive), fearful (≥ 1), urgent (≥ 1), positive (≥ 1),
neutral; in particular a line whose positive score strictly exceeds
its angry score is never classified angry. -/
theorem tone_priority_rule :
    ∀ message : String,
      ((classify_tone message = "angry/frustrated" ↔
        1 ≤ _stem_score (pyLower message) ANGRY_STEMS ∧
        _stem_score (pyLower message) POSITIVE_STEMS ≤
          _stem_score (pyLower message) ANGRY_STEMS) ∧
      (classify_tone message = "fearful/anxious" ↔
        ¬(1 ≤ _stem_score (pyLower message) ANGRY_STEMS ∧
          _stem_score (pyLower message) POSITIVE_STEMS ≤
            _stem_score (pyLower message) ANGRY_STEMS) ∧
        1 ≤ _stem_score (pyLower message) FEARFUL_STEMS) ∧
      (classify_tone message = "urgent" ↔
        ¬(1 ≤ _stem_score (pyLower message) ANGRY_STEMS ∧
          _stem_score (pyLower message) POSITIVE_STEMS ≤
            _stem_score (pyLower message) ANGRY_STEMS) ∧
        ¬(1 ≤ _stem_score (pyLower message) FEARFUL_STEMS) ∧
        1 ≤ _stem_score (pyLower message) URGENT_STEMS) ∧
      (classify_tone message = "positive" ↔
        ¬(1 ≤ _stem_score (pyLower message) ANGRY_STEMS ∧
          _stem_score (pyLower message) POSITIVE_STEMS ≤
            _stem_score (pyLower message) ANGRY_STEMS) ∧
        ¬(1 ≤ _stem_score (pyLower message) FEARFUL_STEMS) ∧
        ¬(1 ≤ _stem_score (pyLower message) URGENT_STEMS) ∧
        1 ≤ _stem_score (pyLower message) POSITIVE_STEMS)) ∧
      (_stem_score (pyLower message) ANGRY_STEMS <
          _stem_score (pyLower message) POSITIVE_STEMS →
        classify_tone message ≠ "angry/frustrated") := by
  intro message
  constructor
  · simp only [classify_tone]
    split_ifs with h1 h2 h3 h4 <;> refine ⟨?_, ?_, ?_, ?_⟩ <;> simp_all
  · intro hlt
    have hneg : ¬(1 ≤ _stem_score (pyLower message) ANGRY_STEMS ∧
        _stem_score (pyLower message) POSITIVE_STEMS ≤
          _stem_score (pyLower message) ANGRY_STEMS) :=
      fun h => absurd h.2 (Nat.not_le.mpr hlt)
    simp only [classify_tone, if_neg hneg]
    split_ifs <;> simp

/-- Claim C10 witness: a line containing one angry stem but two
positive stems is not classified angry. -/
theorem tone_priority_rule_witness :
    classify_tone "harass thank help" ≠ "angry/frustrated" :=
  (tone_priority_rule "harass thank help").2 (by decide)

/-- The fallback document's summary is never empty: both branches of
`_build_fallback_compliance` start with a fixed non-empty phrase. -/
theorem fallback_summary_nonempty (error : String) :
    (_build_fallback_compliance error).summary ≠ "" := by
  unfold _build_fallback_compliance
  by_cases h : error = ""
  · simp [h]
  · rw [if_pos h]
    intro hc
    have h2 := congrArg String.length hc
    rw [String.length_append] at h2
    simp at h2
    exact absurd h2.1 (by decide)

/-- Claim C3 counterexample: when the primary reasoning attempt fails
because its output is malformed (a JSON parse error), the orchestrator
does not invoke the secondary model — even one that would have
succeeded — and returns the neutral fallback document directly, so the
claimed retry-on-any-failure does not happen. -/
theorem no_retry_on_parse_error_cex :
    (run_compliance_analysis
        (.parseError "Expecting value: line 1 column 1 (char 0)")
        (.ok (_build_fallback_compliance ""))).2 = false ∧
    (run_compliance_analysis
        (.parseError "Expecting value: line 1 column 1 (char 0)")
        (.ok (_build_fallback_compliance ""))).1 =
      _build_fallback_compliance
        "JSON parse error: Expecting value: line 1 column 1 (char 0)" :=
  ⟨rfl, rfl⟩

/-- Claim C3 (amended): the orchestrator invokes the secondary model
configuration (with the identical prompt) exactly when the primary
attempt fails with an error other than a JSON parse failure; a
malformed primary output falls back directly to the neutral default
document without any retry. -/
theorem retry_only_on_call_failure :
    ∀ primary secondary : AttemptOutcome,
      ((run_compliance_analysis primary secondary).2 = true ↔
        ∃ msg, primary = AttemptOutcome.callError msg) ∧
      (∀ msg, primary = AttemptOutcome.parseError msg →
        run_compliance_analysis primary secondary =
          (_build_fallback_compliance ("JSON parse error: " ++ msg), false)) := by
  intro primary secondary
  cases primary <;> cases secondary <;>
    simp [run_compliance_analysis]

/-- Claim C3 witness: a primary call failure does trigger the
secondary attempt, and a primary parse failure yields the fallback
with no retry. -/
theorem retry_only_on_call_failure_witness :
    (run_compliance_analysis (.callError "timeout")
        (.ok (_build_fallback_compliance "x"))).2 = true ∧
    run_compliance_analysis (.parseError "bad token")
        (.callError "unreachable") =
      (_build_fallback_compliance "JSON parse error: bad token", false) :=
  ⟨(retry_only_on_call_failure (.callError "timeout")
        (.ok (_build_fallback_compliance "x"))).1.mpr ⟨"timeout", rfl⟩,
   (retry_only_on_call_failure (.parseError "bad token")
        (.callError "unreachable")).2 "bad token" rfl⟩

/-- Claim C4: if both the primary and the secondary reasoning attempts
fail, the orchestrator returns (the embedding is a total function, so
nothing is raised) the fixed neutral fallback document:
is_within_policy=true, empty violation list, medium/fair agent
ratings, final_status "Pending Review", and a non-empty summary
annotating the failure. -/
theorem reasoning_failure_fallback :
    ∀ primary secondary : AttemptOutcome,
      primary.failed → secondary.failed →
      (∃ e, (run_compliance_analysis primary secondary).1 =
        _build_fallback_compliance e) ∧
      (run_compliance_analysis primary secondary).1.is_within_policy = true ∧
      (run_compliance_analysis primary secondary).1.policy_violations = [] ∧
      (run_compliance_analysis primary secondary).1.agent_politeness = "fair" ∧
      (run_compliance_analysis primary secondary).1.agent_empathy = "medium" ∧
      (run_compliance_analysis primary secondary).1.agent_professionalism = "fair" ∧
      (run_compliance_analysis primary secondary).1.final_status = "Pending Review" ∧
      (run_compliance_analysis primary secondary).1.summary ≠ "" := by
  intro primary secondary hp hs
  cases primary with
  | ok doc => exact absurd hp (by simp [AttemptOutcome.failed])
  | parseError msg =>
    exact ⟨⟨"JSON parse error: " ++ msg, rfl⟩, rfl, rfl, rfl, rfl, rfl, rfl,
      fallback_summary_nonempty _⟩
  | callError msg =>
    cases secondary with
    | ok doc => exact absurd hs (by simp [AttemptOutcome.failed])
    | parseError msg2 =>
      exact ⟨⟨"JSON parse error: " ++ msg2, rfl⟩, rfl, rfl, rfl, rfl, rfl, rfl,
        fallback_summary_nonempty _⟩
    | callError msg2 =>
      exact ⟨⟨msg2, rfl⟩, rfl, rfl, rfl, rfl, rfl, rfl,
        fallback_summary_nonempty _⟩

/-- Claim C4 witness: both attempts failing with call errors yields
the neutral document. -/
theorem reasoning_failure_fallback_witness :
    (run_compliance_analysis (.callError "quota exceeded")
        (.callError "")).1.is_within_policy = true ∧
    (run_compliance_analysis (.callError "quota exceeded")
        (.callError "")).1.final_status = "Pending Review" :=
  ⟨(reasoning_failure_fallback (.callError "quota exceeded") (.callError "")
      trivial trivial).2.1,
   (reasoning_failure_fallback (.callError "quota exceeded") (.callError "")
      trivial trivial).2.2.2.2.2.2.1⟩

/-- Severity normalization never changes an entry's clause id. -/
theorem normalizeSeverity_clause_id (v : ViolationEntry) :
    (normalizeSeverity v).clause_id = v.clause_id := by
  simp only [normalizeSeverity]
  split_ifs <;> rfl

/-- Severity normalization of a whole list preserves the number of
temporal-clause entries. -/
theorem temporalCount_map_normalize (vs : List ViolationEntry) :
    temporalCount (vs.map normalizeSeverity) = temporalCount vs := by
  unfold temporalCount
  rw [List.countP_map]
  congr 1
  funext v
  simp [Function.comp, normalizeSeverity_clause_id]

/-- Claim C1 counterexample: if the reasoning step reports the same
temporal violation twice under the fixed id INTERNAL-TIME-01, the
assembler appends nothing and the final list contains that id twice,
not exactly once. The temporal-checker input is a genuine violating
result (21:30 IST). -/
theorem temporal_injection_cex :
    ¬ (temporalCount (build_compliance_audit
        { policy_violations :=
            [{ clause_id := some "INTERNAL-TIME-01", severity := some "high" },
             { clause_id := some "INTERNAL-TIME-01", severity := some "high" }] }
        (check_time_violation (some ⟨16, 0, 0⟩))).policy_violations = 1) := by
  decide

/-- Claim C1 (amended): whenever the temporal checker flags a
violation, the assembled violation list contains
`max (input temporal count) 1` entries under the fixed temporal id —
so at least one, and exactly one whenever the reasoning step reported
the id at most once (in particular zero or one times). -/
theorem temporal_injection_amended :
    ∀ (cr : ComplianceResultAudit) (tv : TimeViolationResult),
      tv.violation = true →
      temporalCount (build_compliance_audit cr tv).policy_violations =
        max (temporalCount cr.policy_violations) 1 := by
  intro cr tv hv
  have hmap := temporalCount_map_normalize cr.policy_violations
  simp only [build_compliance_audit]
  by_cases hmem : some "INTERNAL-TIME-01" ∈
      (cr.policy_violations.map normalizeSeverity).map (·.clause_id)
  · rw [if_neg (fun h => h.2 hmem)]
    have hpos : 0 < temporalCount (cr.policy_violations.map normalizeSeverity) := by
      obtain ⟨w, hw, hid⟩ := List.mem_map.mp hmem
      unfold temporalCount
      exact List.countP_pos_iff.mpr ⟨w, hw, by simp [hid]⟩
    omega
  · rw [if_pos ⟨by simp [hv], hmem⟩]
    have hzero : temporalCount (cr.policy_violations.map normalizeSeverity) = 0 := by
      unfold temporalCount
      rw [List.countP_eq_zero]
      intro v hvmem
      simp only [decide_eq_true_eq]
      exact fun hid => hmem (List.mem_map.mpr ⟨v, hvmem, hid⟩)
    have happ : temporalCount
        (cr.policy_violations.map normalizeSeverity ++ [timeViolationEntry tv]) =
        temporalCount (cr.policy_violations.map normalizeSeverity) +
          temporalCount [timeViolationEntry tv] := by
      unfold temporalCount
      exact List.countP_append _ _ _
    have hone : temporalCount [timeViolationEntry tv] = 1 := by
      simp [temporalCount, timeViolationEntry, List.countP_cons]
    omega

/-- Claim C1 witness: with no reasoning-reported temporal entry and a
violating call time, the final list contains the temporal id exactly
once. -/
theorem temporal_injection_amended_witness :
    temporalCount (build_compliance_audit { policy_violations := [] }
      (check_time_violation (some ⟨16, 0, 0⟩))).policy_violations = 1 := by
  have h := temporal_injection_amended { policy_violations := [] }
    (check_time_violation (some ⟨16, 0, 0⟩)) (by decide)
  simpa using h

/-- After normalization, an entry's lowercased severity is always one
of the four canonical values. -/
theorem normalizeSeverity_canonical (v : ViolationEntry) :
    pyLower ((normalizeSeverity v).severity.getD "") ∈ _severity_values := by
  simp only [normalizeSeverity]
  split_ifs with h
  · exact h
  · show pyLower ((some "medium" : Option String).getD "") ∈ _severity_values
    decide

/-- Claim C2 counterexample: an input severity "HIGH" lowercases into
the valid set, so the normalization leaves the field as the literal
"HIGH" — which is not one of the four canonical values — refuting
"after normalization the severity field is one of {low, medium, high,
critical}". The temporal-checker result is a genuine non-violating
one (15:30 IST), so no entry is injected. -/
theorem severity_normalization_cex :
    (build_compliance_audit
        { policy_violations :=
            [{ clause_id := some "RBI-REC-04", severity := some "HIGH" }] }
        (check_time_violation (some ⟨10, 0, 0⟩))).policy_violations.map
      (·.severity) = [some "HIGH"] ∧
    "HIGH" ∉ _severity_values := by
  constructor
  · rfl
  · decide

/-- Claim C2 (amended): the normalization step guarantees only that
the lowercasing of every assembled violation's severity is one of the
four canonical values: a severity whose lowercasing is not in the set
(including an absent one) becomes the literal "medium", while any
severity whose lowercasing is already in the set — case variants such
as "HIGH" included — passes through unchanged. -/
theorem severity_normalization_amended :
    ∀ (cr : ComplianceResultAudit) (tv : TimeViolationResult),
      (∀ v ∈ (build_compliance_audit cr tv).policy_violations,
        pyLower (v.severity.getD "") ∈ _severity_values) ∧
      (∀ v : ViolationEntry, pyLower (v.severity.getD "") ∈ _severity_values →
        normalizeSeverity v = v) ∧
      (∀ v : ViolationEntry, pyLower (v.severity.getD "") ∉ _severity_values →
        (normalizeSeverity v).severity = some "medium") := by
  intro cr tv
  refine ⟨?_, ?_, ?_⟩
  · intro v hv
    simp only [build_compliance_audit] at hv
    split at hv
    · rcases List.mem_append.mp hv with hmap | hinj
      · obtain ⟨w, _, rfl⟩ := List.mem_map.mp hmap
        exact normalizeSeverity_canonical w
      · rw [List.mem_singleton.mp hinj]
        show pyLower ((some "high" : Option String).getD "") ∈ _severity_values
        decide
    · obtain ⟨w, _, rfl⟩ := List.mem_map.mp hv
      exact normalizeSeverity_canonical w
  · intro v h
    simp only [normalizeSeverity, if_pos h]
  · intro v h
    simp only [normalizeSeverity, if_neg h]

/-- Claim C2 witness: an invalid severity is replaced, and the
replaced entry in the assembled output has canonical lowercased
severity. -/
theorem severity_normalization_amended_witness :
    pyLower ((({ severity := some "medium" } : ViolationEntry)).severity.getD "")
      ∈ _severity_values ∧
    (normalizeSeverity { severity := some "WRONG" }).severity = some "medium" := by
  constructor
  · exact (severity_normalization_amended
      { policy_violations := [{ severity := some "WRONG" }] }
      (check_time_violation none)).1 { severity := some "medium" } (by decide)
  · exact (severity_normalization_amended
      { policy_violations := [] } (check_time_violation none)).2.2
      { severity := some "WRONG" } (by decide)

/-- A Boolean "no element" test on a list agrees with emptiness. -/
theorem bool_not_length_pos {α : Type} (L : List α) :
    ((!decide (0 < L.length)) = true ↔ L = []) := by
  cases L <;> simp

/-- Claim C6: in the assembled audit, `is_within_policy` equals the
negation of "the post-injection violation list is non-empty" when the
reasoning output did not supply the field, and is kept verbatim when
it did — even when it contradicts the violation list. -/
theorem is_within_policy_derivation :
    ∀ (cr : ComplianceResultAudit) (tv : TimeViolationResult),
      (∀ b, cr.is_within_policy = some b →
        (build_compliance_audit cr tv).is_within_policy = b) ∧
      (cr.is_within_policy = none →
        ((build_compliance_audit cr tv).is_within_policy = true ↔
          (build_compliance_audit cr tv).policy_violations = [])) := by
  intro cr tv
  constructor
  · intro b hb
    simp only [build_compliance_audit, hb, Option.getD_some]
  · intro hn
    simp only [build_compliance_audit, hn, Option.getD_none]
    exact bool_not_length_pos _

/-- Claim C6 witness: a supplied `is_within_policy=true` is kept
verbatim even though the assembled list contains a violation, and an
unsupplied one is derived from the (empty) list. -/
theorem is_within_policy_derivation_witness :
    (build_compliance_audit
        { is_within_policy := some true
          policy_violations := [{ clause_id := some "RBI-REC-04", severity := some "high" }] }
        (check_time_violation none)).is_within_policy = true ∧
    (build_compliance_audit { policy_violations := [] }
        (check_time_violation none)).is_within_policy = true := by
  constructor
  · exact (is_within_policy_derivation
      { is_within_policy := some true
        policy_violations := [{ clause_id := some "RBI-REC-04", severity := some "high" }] }
      (check_time_violation none)).1 true rfl
  · exact ((is_within_policy_derivation { policy_violations := [] }
      (check_time_violation none)).2 rfl).mpr (by decide)

/-- The kept windows are exactly the per-window list filtered by the
half-second sample threshold. -/
theorem keptWindows_eq_filter (totalSamples : Nat) :
    keptWindows totalSamples =
      (allWindows totalSamples).filter
        (fun w => decide (SAMPLE_RATE ≤ 2 * (w.2 - w.1))) := by
  unfold keptWindows allWindows
  generalize List.range (numSegments totalSamples) = l
  induction l with
  | nil => rfl
  | cons i l ih =>
    simp only [List.filterMap_cons, List.map_cons, List.filter_cons, keptWindow?]
    split_ifs with h1 h2 h3
    · exfalso
      simp only [decide_eq_true_eq] at h2
      omega
    · exact ih
    · rw [ih]
    · exfalso
      simp only [decide_eq_true_eq] at h3
      omega

/-- Every non-trailing window (any window other than the last) has the
full ten-second length and is therefore kept: only the trailing window
can be dropped. -/
theorem nontrailing_window_kept (totalSamples i : Nat)
    (h : i + 1 < numSegments totalSamples) :
    windowBounds totalSamples i ∈ keptWindows totalSamples := by
  have hs : (0 : Nat) < segmentSamples := by decide
  have hss : (i + 1) * segmentSamples < totalSamples := by
    unfold numSegments at h
    rcases Nat.le_total 1 ((totalSamples + segmentSamples - 1) / segmentSamples) with
      hle | hle
    · rw [Nat.max_eq_right hle] at h
      have h2 : i + 2 ≤ (totalSamples + segmentSamples - 1) / segmentSamples := by
        omega
      have h3 := (Nat.le_div_iff_mul_le hs).mp h2
      have hexp : (i + 2) * segmentSamples =
          (i + 1) * segmentSamples + segmentSamples := by ring
      omega
    · rw [Nat.max_eq_left hle] at h
      omega
  have hmin : min (i * segmentSamples + segmentSamples) totalSamples =
      i * segmentSamples + segmentSamples := by
    apply Nat.min_eq_left
    have : i * segmentSamples + segmentSamples = (i + 1) * segmentSamples := by ring
    omega
  have hlen : (windowBounds totalSamples i).2 - (windowBounds totalSamples i).1 =
      segmentSamples := by
    simp [windowBounds, hmin]
  unfold keptWindows
  refine List.mem_filterMap.mpr ⟨i, List.mem_range.mpr (by omega), ?_⟩
  unfold keptWindow?
  rw [if_neg (by rw [hlen]; decide)]

/-- Claim C8 counterexample: a 13-second clip (208000 samples at
16 kHz) has a trailing 3-second window, shorter than half the
10-second window length, which the claim says is dropped; the code
keeps it, because its threshold is half a second (`sr * 0.5`
samples), not half a window. -/
theorem window_drop_threshold_cex :
    keptWindows 208000 = [(0, 160000), (160000, 208000)] ∧
    claimKeptWindows 208000 = [(0, 160000)] ∧
    keptWindows 208000 ≠ claimKeptWindows 208000 := by
  refine ⟨by decide, by decide, by decide⟩

/-- Claim C8 (amended): the Acoustic Segmenter produces one segment
per fixed 10-second window except that a window containing fewer than
half a second of samples (`sr * 0.5`, not half the window length) is
dropped; every window other than the trailing one has the full
ten-second sample count and is always kept, so every dropped window
is a trailing one. -/
theorem window_drop_amended :
    ∀ totalSamples : Nat,
      keptWindows totalSamples =
        (allWindows totalSamples).filter
          (fun w => decide (SAMPLE_RATE ≤ 2 * (w.2 - w.1))) ∧
      ∀ i, i + 1 < numSegments totalSamples →
        windowBounds totalSamples i ∈ keptWindows totalSamples :=
  fun totalSamples =>
    ⟨keptWindows_eq_filter totalSamples,
     fun i h => nontrailing_window_kept totalSamples i h⟩

/-- Claim C8 witness: a 20-second clip keeps its first window. -/
theorem window_drop_amended_witness :
    windowBounds 320000 0 ∈ keptWindows 320000 :=
  (window_drop_amended 320000).2 0 (by decide)

/-- The RBI-branch loop body preserves the retrieval invariant: the
accumulated clause ids are distinct and all recorded in the seen
set. -/
theorem processRbiDoc_inv (st : RetrieveState) (doc : RetrievedDoc)
    (h1 : (st.2.map (·.clause_id)).Nodup)
    (h2 : ∀ c ∈ st.2, c.clause_id ∈ st.1) :
    ((processRbiDoc st doc).2.map (·.clause_id)).Nodup ∧
    ∀ c ∈ (processRbiDoc st doc).2,
      c.clause_id ∈ (processRbiDoc st doc).1 := by
  unfold processRbiDoc
  by_cases hmem : pyOr doc.clause_id (_extract_clause_id doc.page_content) ∈ st.1
  · rw [if_pos hmem]
    exact ⟨h1, h2⟩
  · rw [if_neg hmem]
    constructor
    · simp only [List.map_append, List.map_cons, List.map_nil]
      rw [List.nodup_append]
      refine ⟨h1, List.nodup_singleton _, ?_⟩
      intro a ha hb
      rw [List.mem_singleton.mp hb] at ha
      obtain ⟨w, hw, hwid⟩ := List.mem_map.mp ha
      exact hmem (hwid ▸ h2 w hw)
    · intro c hc
      rcases List.mem_append.mp hc with h | h
      · exact List.mem_cons_of_mem _ (h2 c h)
      · rw [List.mem_singleton.mp h]
        exact List.mem_cons_self _ _

/-- Folding the RBI-branch body over a list of documents preserves the
retrieval invariant. -/
theorem foldRbi_inv (docs : List RetrievedDoc) :
    ∀ st : RetrieveState,
      (st.2.map (·.clause_id)).Nodup →
      (∀ c ∈ st.2, c.clause_id ∈ st.1) →
      ((docs.foldl processRbiDoc st).2.map (·.clause_id)).Nodup ∧
      ∀ c ∈ (docs.foldl processRbiDoc st).2,
        c.clause_id ∈ (docs.foldl processRbiDoc st).1 := by
  induction docs with
  | nil => exact fun st h1 h2 => ⟨h1, h2⟩
  | cons d ds ih =>
    intro st h1 h2
    have h := processRbiDoc_inv st d h1 h2
    exact ih _ h.1 h.2

/-- The whole per-message loop, with no client store present,
preserves the retrieval invariant. -/
theorem retrieveFold_inv (hits : List (List RetrievedDoc × List RetrievedDoc)) :
    ∀ st : RetrieveState,
      (st.2.map (·.clause_id)).Nodup →
      (∀ c ∈ st.2, c.clause_id ∈ st.1) →
      ((hits.foldl (retrieveStep false) st).2.map (·.clause_id)).Nodup ∧
      ∀ c ∈ (hits.foldl (retrieveStep false) st).2,
        c.clause_id ∈ (hits.foldl (retrieveStep false) st).1 := by
  induction hits with
  | nil => exact fun st h1 h2 => ⟨h1, h2⟩
  | cons hit rest ih =>
    intro st h1 h2
    rw [List.foldl_cons]
    have hstep : retrieveStep false st hit = hit.1.foldl processRbiDoc st := by
      simp [retrieveStep]
    rw [hstep]
    have h := foldRbi_inv hit.1 st h1 h2
    exact ih _ h.1 h.2

/-- The RBI-branch loop body appends a clause only together with a
fresh key: the seen set stays duplicate-free with exactly one key per
accumulated clause. -/
theorem processRbiDoc_key_inv (st : RetrieveState) (doc : RetrievedDoc)
    (h1 : st.1.Nodup) (h2 : st.2.length = st.1.length) :
    (processRbiDoc st doc).1.Nodup ∧
    (processRbiDoc st doc).2.length = (processRbiDoc st doc).1.length := by
  unfold processRbiDoc
  by_cases hmem : pyOr doc.clause_id (_extract_clause_id doc.page_content) ∈ st.1
  · rw [if_pos hmem]
    exact ⟨h1, h2⟩
  · rw [if_neg hmem]
    exact ⟨List.nodup_cons.mpr ⟨hmem, h1⟩, by simp [h2]⟩

/-- The client-branch loop body appends a clause only together with a
fresh composite key: the seen set stays duplicate-free with exactly
one key per accumulated clause. -/
theorem processClientDoc_key_inv (st : RetrieveState) (doc : RetrievedDoc)
    (h1 : st.1.Nodup) (h2 : st.2.length = st.1.length) :
    (processClientDoc st doc).1.Nodup ∧
    (processClientDoc st doc).2.length = (processClientDoc st doc).1.length := by
  unfold processClientDoc
  by_cases hmem : "CLIENT-" ++ doc.rule_name.getD (doc.clause_id.getD "CLIENT-XX")
      ∈ st.1
  · rw [if_pos hmem]
    exact ⟨h1, h2⟩
  · rw [if_neg hmem]
    exact ⟨List.nodup_cons.mpr ⟨hmem, h1⟩, by simp [h2]⟩

/-- Folding the RBI-branch body preserves the key invariant. -/
theorem foldRbi_key_inv (docs : List RetrievedDoc) :
    ∀ st : RetrieveState, st.1.Nodup → st.2.length = st.1.length →
      (docs.foldl processRbiDoc st).1.Nodup ∧
      (docs.foldl processRbiDoc st).2.length =
        (docs.foldl processRbiDoc st).1.length := by
  induction docs with
  | nil => exact fun st h1 h2 => ⟨h1, h2⟩
  | cons d ds ih =>
    intro st h1 h2
    have h := processRbiDoc_key_inv st d h1 h2
    exact ih _ h.1 h.2

/-- Folding the client-branch body preserves the key invariant. -/
theorem foldClient_key_inv (docs : List RetrievedDoc) :
    ∀ st : RetrieveState, st.1.Nodup → st.2.length = st.1.length →
      (docs.foldl processClientDoc st).1.Nodup ∧
      (docs.foldl processClientDoc st).2.length =
        (docs.foldl processClientDoc st).1.length := by
  induction docs with
  | nil => exact fun st h1 h2 => ⟨h1, h2⟩
  | cons d ds ih =>
    intro st h1 h2
    have h := processClientDoc_key_inv st d h1 h2
    exact ih _ h.1 h.2

/-- One per-message iteration — client store present or not —
preserves the key invariant. -/
theorem retrieveStep_key_inv (clientPresent : Bool) (st : RetrieveState)
    (hit : List RetrievedDoc × List RetrievedDoc)
    (h1 : st.1.Nodup) (h2 : st.2.length = st.1.length) :
    (retrieveStep clientPresent st hit).1.Nodup ∧
    (retrieveStep clientPresent st hit).2.length =
      (retrieveStep clientPresent st hit).1.length := by
  unfold retrieveStep
  cases clientPresent
  · simp only [Bool.false_eq_true, if_false]
    exact foldRbi_key_inv hit.1 st h1 h2
  · simp only [if_true]
    have h := foldRbi_key_inv hit.1 st h1 h2
    exact foldClient_key_inv hit.2 _ h.1 h.2

/-- The whole retrieval loop preserves the key invariant, for either
value of `clientPresent`. -/
theorem retrieveFold_key_inv (clientPresent : Bool)
    (hits : List (List RetrievedDoc × List RetrievedDoc)) :
    ∀ st : RetrieveState, st.1.Nodup → st.2.length = st.1.length →
      (hits.foldl (retrieveStep clientPresent) st).1.Nodup ∧
      (hits.foldl (retrieveStep clientPresent) st).2.length =
        (hits.foldl (retrieveStep clientPresent) st).1.length := by
  induction hits with
  | nil => exact fun st h1 h2 => ⟨h1, h2⟩
  | cons hit rest ih =>
    intro st h1 h2
    rw [List.foldl_cons]
    have h := retrieveStep_key_inv clientPresent st hit h1 h2
    exact ih _ h.1 h.2

/-- The pipeline merge loop keeps clause ids distinct and only appends
a subsequence of the retrieved clauses after the corpus. -/
theorem mergeGo_spec (rag : List Clause) :
    ∀ (seen : List String) (acc : List Clause),
      (acc.map (·.clause_id)).Nodup →
      (∀ c ∈ acc, c.clause_id ∈ seen) →
      ((mergeGo seen acc rag).map (·.clause_id)).Nodup ∧
      ∃ l, List.Sublist l rag ∧ mergeGo seen acc rag = acc ++ l := by
  induction rag with
  | nil =>
    intro seen acc h1 _
    exact ⟨h1, [], List.nil_sublist _, by simp [mergeGo]⟩
  | cons c rest ih =>
    intro seen acc h1 h2
    simp only [mergeGo]
    by_cases hmem : c.clause_id ∈ seen
    · rw [if_pos hmem]
      obtain ⟨nd, l, hl, heq⟩ := ih seen acc h1 h2
      exact ⟨nd, l, hl.trans (List.sublist_cons_self c rest), heq⟩
    · rw [if_neg hmem]
      have h1a : ((acc ++ [c]).map (·.clause_id)).Nodup := by
        simp only [List.map_append, List.map_cons, List.map_nil]
        rw [List.nodup_append]
        refine ⟨h1, List.nodup_singleton _, ?_⟩
        intro a ha hb
        rw [List.mem_singleton.mp hb] at ha
        obtain ⟨w, hw, hwid⟩ := List.mem_map.mp ha
        exact hmem (hwid ▸ h2 w hw)
      have h2a : ∀ x ∈ acc ++ [c], x.clause_id ∈ c.clause_id :: seen := by
        intro x hx
        rcases List.mem_append.mp hx with h | h
        · exact List.mem_cons_of_mem _ (h2 x h)
        · rw [List.mem_singleton.mp h]
          exact List.mem_cons_self _ _
      obtain ⟨nd, l, hl, heq⟩ := ih (c.clause_id :: seen) (acc ++ [c]) h1a h2a
      exact ⟨nd, c :: l, hl.cons₂ c, by rw [heq]; simp⟩

/-- Claim C5 counterexample: two client risk-trigger documents share
the placeholder clause_id "CLIENT-TRIGGER" but have different rule
names, so the retriever (whose client-branch dedup key is the
composite "CLIENT-"+rule_name) returns both — the result contains the
same clause_id twice. -/
theorem retriever_duplicate_clause_id_cex :
    (retrieve_relevant_clauses true
        [([],
          [{ page_content := "RISK TRIGGER: Harassment — Any agent behaviour constituting \x27Harassment\x27 is a policy violation."
             clause_id := some "CLIENT-TRIGGER"
             rule_name := some "Harassment"
             source := some "client_config" },
           { page_content := "RISK TRIGGER: Coercion — Any agent behaviour constituting \x27Coercion\x27 is a policy violation."
             clause_id := some "CLIENT-TRIGGER"
             rule_name := some "Coercion"
             source := some "client_config" }])]).map (·.clause_id) =
      ["CLIENT-TRIGGER", "CLIENT-TRIGGER"] ∧
    ¬ ((retrieve_relevant_clauses true
        [([],
          [{ page_content := "RISK TRIGGER: Harassment — Any agent behaviour constituting \x27Harassment\x27 is a policy violation."
             clause_id := some "CLIENT-TRIGGER"
             rule_name := some "Harassment"
             source := some "client_config" },
           { page_content := "RISK TRIGGER: Coercion — Any agent behaviour constituting \x27Coercion\x27 is a policy violation."
             clause_id := some "CLIENT-TRIGGER"
             rule_name := some "Coercion"
             source := some "client_config" }])]).map (·.clause_id)).Nodup := by
  refine ⟨by decide, by decide⟩

/-- Claim C5 (amended): the retriever never returns two entries under
the same deduplication key (clause_id for primary-index hits,
"CLIENT-"+rule_name for client hits): an entry is appended exactly
when its key is inserted into the seen set, so — with or without a
client-rule index — the final seen set is duplicate-free and holds
exactly one key per returned entry. With no client-rule index present
this specializes to clause-id uniqueness: the result never contains
the same clause_id twice; with a client index, synthetic risk-trigger
clauses sharing the placeholder clause_id may repeat it (the key
disambiguates them by rule name). The orchestrating layer's union of
the full corpus with the retrieval result, deduplicated on clause_id,
contains no duplicate clause_id whenever the corpus itself has none,
and preserves first-seen order: it is the corpus followed in order by
a subsequence of the retrieved clauses. -/
theorem retrieval_dedup_amended :
    (∀ (clientPresent : Bool)
        (hits : List (List RetrievedDoc × List RetrievedDoc)),
      (hits.foldl (retrieveStep clientPresent) ([], [])).1.Nodup ∧
      (retrieve_relevant_clauses clientPresent hits).length =
        (hits.foldl (retrieveStep clientPresent) ([], [])).1.length) ∧
    (∀ hits : List (List RetrievedDoc × List RetrievedDoc),
      ((retrieve_relevant_clauses false hits).map (·.clause_id)).Nodup) ∧
    (∀ allClauses ragClauses : List Clause,
      (allClauses.map (·.clause_id)).Nodup →
      ((mergeClauses allClauses ragClauses).map (·.clause_id)).Nodup ∧
      ∃ l, List.Sublist l ragClauses ∧
        mergeClauses allClauses ragClauses = allClauses ++ l) := by
  refine ⟨?_, ?_, ?_⟩
  · intro clientPresent hits
    unfold retrieve_relevant_clauses
    exact retrieveFold_key_inv clientPresent hits ([], [])
      List.nodup_nil rfl
  · intro hits
    unfold retrieve_relevant_clauses
    exact (retrieveFold_inv hits ([], []) (by simp) (by simp)).1
  · intro allClauses ragClauses hnd
    unfold mergeClauses
    exact mergeGo_spec ragClauses _ allClauses hnd
      (fun c hc => List.mem_map_of_mem _ hc)

/-- Claim C5 witness: merging a one-clause corpus with a retrieval
result that repeats its id and adds a new one yields distinct ids. -/
theorem retrieval_dedup_amended_witness :
    ((mergeClauses
        [{ clause_id := "RBI-REC-01", rule_name := "Permitted Calling Hours"
           description := "No recovery calls before 8 AM or after 7 PM."
           source := "rbi_recovery_guidelines.txt" }]
        [{ clause_id := "RBI-REC-01", rule_name := "Permitted Calling Hours"
           description := "No recovery calls before 8 AM or after 7 PM."
           source := "rbi_policies" },
         { clause_id := "CLIENT-TRIGGER", rule_name := "Harassment"
           description := "RISK TRIGGER: Harassment"
           source := "client_config" }]).map (·.clause_id)).Nodup :=
  ((retrieval_dedup_amended.2.2
      [{ clause_id := "RBI-REC-01", rule_name := "Permitted Calling Hours"
         description := "No recovery calls before 8 AM or after 7 PM."
         source := "rbi_recovery_guidelines.txt" }]
      [{ clause_id := "RBI-REC-01", rule_name := "Permitted Calling Hours"
         description := "No recovery calls before 8 AM or after 7 PM."
         source := "rbi_policies" },
       { clause_id := "CLIENT-TRIGGER", rule_name := "Harassment"
         description := "RISK TRIGGER: Harassment"
         source := "client_config" }]) (by decide)).1

end Vigilant
